import Mathlib

/-!
Shallow embedding of the copy-trading decision core of this repository:

* `TradeExecutor.calculate_position_size`, `TradeExecutor.execute_market_order`
  and `TradeExecutor.copy_trade` from `src/trade_executor.py`;
* `PositionLimiter.should_allow_trade`, `record_trade` and `reset_position`
  from `src/position_limiter.py`;
* `PortfolioExecutor.rebalance_position` from `src/portfolio_executor.py`.

Money amounts, prices and position sizes are modelled as exact rationals
(`ℚ`); wall-clock times are rationals measured in seconds; the environment
configuration read in the constructors is passed explicitly as a record.
The exchange/transport collaborator is not modelled: each function returns
the decision (order direction and quantity, or a typed skip/failure) that
the source computes right before handing it to the exchange client.
-/

/-- Hyperliquid minimum order value: `self.min_order_value = 10.0` in both
`TradeExecutor.__init__` and `PortfolioExecutor.__init__`. -/
def minOrderValue : ℚ := 10

/-- Sizing configuration read from the environment in
`TradeExecutor.__init__` and inside `calculate_position_size`:
`SIZING_METHOD`, `ACCOUNT_RATIO`, `MAX_POSITION_SIZE`, `FIXED_SIZE`,
`WALLET_PERCENTAGE`, `WALLET_FIXED_AMOUNT`. -/
structure SizingConfig where
  sizing_method : String
  account_ratio : ℚ
  max_position_size : ℚ
  fixed_size : ℚ
  wallet_percentage : ℚ
  wallet_fixed_amount : ℚ
  deriving DecidableEq

/-- The method-dispatch step of `TradeExecutor.calculate_position_size`
(lines 54-74): unknown methods silently fall back to `fixed_ratio`. -/
def raw_method_size (cfg : SizingConfig) (account_balance signal_size current_price : ℚ) : ℚ :=
  if cfg.sizing_method = "fixed_ratio" then
    |signal_size| * cfg.account_ratio
  else if cfg.sizing_method = "fixed_size" then
    cfg.fixed_size
  else if cfg.sizing_method = "wallet_percentage" then
    account_balance * cfg.wallet_percentage / current_price
  else if cfg.sizing_method = "wallet_fixed" then
    min cfg.wallet_fixed_amount (account_balance * (9 / 10)) / current_price
  else
    |signal_size| * cfg.account_ratio

/-- The max-position-size cap of `calculate_position_size` (lines 76-80),
applied only for non-wallet methods. -/
def apply_max_cap (cfg : SizingConfig) (current_price my_size : ℚ) : ℚ :=
  if cfg.sizing_method ≠ "wallet_percentage" ∧ cfg.sizing_method ≠ "wallet_fixed" then
    if my_size > cfg.max_position_size / current_price then
      cfg.max_position_size / current_price
    else my_size
  else my_size

/-- The minimum-order-value floor of `calculate_position_size`
(lines 82-87). -/
def apply_min_floor (current_price my_size : ℚ) : ℚ :=
  if my_size * current_price < minOrderValue then minOrderValue / current_price
  else my_size

/-- The final 90%-of-balance safety clamp of `calculate_position_size`
(lines 89-93); it runs AFTER the minimum-order floor. -/
def apply_safety_clamp (account_balance current_price my_size : ℚ) : ℚ :=
  if my_size * current_price > account_balance * (9 / 10) then
    account_balance * (9 / 10) / current_price
  else my_size

/-- `TradeExecutor.calculate_position_size(signal_size, current_price)`
(src/trade_executor.py lines 48-95), with the account balance and the
environment configuration passed explicitly: method dispatch, then the
max-position cap, then the minimum-order floor, then the safety clamp. -/
def calculate_position_size (cfg : SizingConfig) (account_balance signal_size current_price : ℚ) : ℚ :=
  apply_safety_clamp account_balance current_price
    (apply_min_floor current_price
      (apply_max_cap cfg current_price
        (raw_method_size cfg account_balance signal_size current_price)))

/-- After the minimum-order floor the order value is at least
`minOrderValue`. -/
lemma min_floor_lower (current_price my_size : ℚ) (hp : 0 < current_price) :
    minOrderValue ≤ apply_min_floor current_price my_size * current_price := by
  unfold apply_min_floor
  split_ifs with h
  · rw [div_mul_cancel₀ _ hp.ne']
  · exact not_lt.mp h

/-- After the safety clamp the order value is at most 90% of the balance. -/
lemma safety_clamp_upper (account_balance current_price my_size : ℚ) (hp : 0 < current_price) :
    apply_safety_clamp account_balance current_price my_size * current_price ≤
      account_balance * (9 / 10) := by
  unfold apply_safety_clamp
  split_ifs with h
  · rw [div_mul_cancel₀ _ hp.ne']
  · exact not_lt.mp h

/-- The safety clamp never pushes the order value below
`min minOrderValue (0.9 * balance)` when it starts at `minOrderValue` or
above. -/
lemma safety_clamp_lower (account_balance current_price my_size : ℚ) (hp : 0 < current_price)
    (hs : minOrderValue ≤ my_size * current_price) :
    min minOrderValue (account_balance * (9 / 10)) ≤
      apply_safety_clamp account_balance current_price my_size * current_price := by
  unfold apply_safety_clamp
  split_ifs with h
  · rw [div_mul_cancel₀ _ hp.ne']
    exact min_le_right _ _
  · exact le_trans (min_le_left _ _) hs

/-- The `wallet_fixed` configuration of the spec's §8 scenario:
`WALLET_FIXED_AMOUNT = 10`; the other parameters are irrelevant to that
method. -/
def walletFixedCfg : SizingConfig :=
  { sizing_method := "wallet_fixed"
    account_ratio := 1 / 10
    max_position_size := 10
    fixed_size := 1
    wallet_percentage := 1 / 10
    wallet_fixed_amount := 10 }

/-- Claim C1: for every sizing method and every input with
`currentPrice > 0` and `accountValue ≥ 0`, the returned quantity times the
price is at least `minOrderValue` (10.0) and at most
`accountValue * 0.9`.  This is FALSE as stated: with `accountValue = 5`
and `price = 10` under `wallet_fixed`, the final safety clamp (which runs
after the minimum-order floor) leaves order value `4.5 < 10`. -/
theorem C1_sizing_invariant_cx :
    (0 : ℚ) < 10 ∧ (0 : ℚ) ≤ 5 ∧
      ¬ minOrderValue ≤ calculate_position_size walletFixedCfg 5 0 10 * 10 := by
  refine ⟨by norm_num, by norm_num, ?_⟩
  simp [calculate_position_size, raw_method_size, apply_max_cap, apply_min_floor,
    apply_safety_clamp, walletFixedCfg, minOrderValue, min_def]
  norm_num

/-- Claim C1 (amended): for every sizing method and every input with
`currentPrice > 0`, the returned quantity times the price is at most
`accountValue * 0.9`, and at least `min minOrderValue (accountValue * 0.9)`
— so it is at least `minOrderValue` exactly when `accountValue * 0.9` is
itself at least `minOrderValue`. -/
theorem C1_sizing_bounds (cfg : SizingConfig) (account_balance signal_size current_price : ℚ)
    (hp : 0 < current_price) :
    calculate_position_size cfg account_balance signal_size current_price * current_price ≤
        account_balance * (9 / 10) ∧
      min minOrderValue (account_balance * (9 / 10)) ≤
        calculate_position_size cfg account_balance signal_size current_price * current_price := by
  unfold calculate_position_size
  exact ⟨safety_clamp_upper _ _ _ hp,
    safety_clamp_lower _ _ _ hp (min_floor_lower _ _ hp)⟩

/-- Witness for C1 (amended) at `wallet_fixed`, balance 5, price 10: the
order value is `4.5 = min 10 4.5` and is bounded by `4.5 = 5 * 0.9`. -/
theorem C1_sizing_bounds_witness :
    calculate_position_size walletFixedCfg 5 0 10 * 10 ≤ (5 : ℚ) * (9 / 10) ∧
      min minOrderValue ((5 : ℚ) * (9 / 10)) ≤
        calculate_position_size walletFixedCfg 5 0 10 * 10 :=
  C1_sizing_bounds walletFixedCfg 5 0 10 (by norm_num)

/-- Claim C2: `wallet_fixed` with `walletFixedAmount = 10`,
`accountValue = 5`, `currentPrice = 10` returns quantity exactly `1.0`.
FALSE: the safety clamp runs last and cuts the floored quantity `1.0`
back to `0.45`. -/
theorem C2_wallet_fixed_cx : calculate_position_size walletFixedCfg 5 0 10 ≠ 1 := by
  simp [calculate_position_size, raw_method_size, apply_max_cap, apply_min_floor,
    apply_safety_clamp, walletFixedCfg, minOrderValue, min_def]
  norm_num

/-- Claim C2 (amended): in that scenario the engine first clamps the
wallet-fixed order value to `accountValue * 0.9 = 4.5` (quantity `0.45`),
the minimum-order floor then raises the quantity to `1.0`, but the final
90% safety clamp runs AFTER the floor and cuts the quantity back to
`0.45` (order value `4.5`): the balance clamp overrides the minimum-order
floor, not the other way round. -/
theorem C2_wallet_fixed_amended : calculate_position_size walletFixedCfg 5 0 10 = 9 / 20 := by
  simp [calculate_position_size, raw_method_size, apply_max_cap, apply_min_floor,
    apply_safety_clamp, walletFixedCfg, minOrderValue, min_def]
  norm_num

/-- Limiter configuration read from the environment in
`PositionLimiter.__init__`: `MAX_TRADES_PER_COIN_HOURLY`,
`MAX_POSITION_PERCENT`, `MIN_SECONDS_BETWEEN_TRADES`. -/
structure LimiterConfig where
  max_trades_per_coin_per_hour : ℕ
  max_position_percent : ℚ
  min_time_between_trades : ℚ
  deriving DecidableEq

/-- The mutable tracking dictionaries of `PositionLimiter`:
`trade_history` (coin → list of trade timestamps), `last_trade_time`
(coin → timestamp) and `position_values` (coin → tracked USD exposure).
`none` models a key that is absent from the Python dict. -/
structure LimiterState where
  trade_history : String → Option (List ℚ)
  last_trade_time : String → Option ℚ
  position_values : String → Option ℚ

/-- Check 1 of `should_allow_trade` (lines 28-32): block when a previous
trade for the coin exists and happened less than
`min_time_between_trades` seconds ago. -/
def blockedByCooldown (cfg : LimiterConfig) (s : LimiterState) (current_time : ℚ)
    (coin : String) : Bool :=
  match s.last_trade_time coin with
  | some t => decide (current_time - t < cfg.min_time_between_trades)
  | none => false

/-- Check 2 of `should_allow_trade` (lines 40-42), applied to the pruned
history: block when the coin is tracked and its recent-trade count has
reached the hourly cap. -/
def frequencyBlocked (cfg : LimiterConfig) (pruned : Option (List ℚ)) : Bool :=
  match pruned with
  | some ts => decide (cfg.max_trades_per_coin_per_hour ≤ ts.length)
  | none => false

/-- `PositionLimiter.should_allow_trade(coin, trade_value, account_balance)`
(src/position_limiter.py lines 21-55), with `datetime.now()` passed as
`current_time` (seconds).  Returns the boolean verdict together with the
state of the limiter after the call: check 2 rewrites
`self.trade_history[coin]` in place, dropping timestamps more than one
hour (3600 s) old, before counting the remainder. -/
def should_allow_trade (cfg : LimiterConfig) (s : LimiterState) (current_time : ℚ)
    (coin : String) (trade_value account_balance : ℚ) : Bool × LimiterState :=
  if blockedByCooldown cfg s current_time coin then (false, s)
  else
    let pruned := (s.trade_history coin).map
      (List.filter fun t => decide (current_time - 3600 < t))
    let s1 : LimiterState := { s with trade_history := Function.update s.trade_history coin pruned }
    if frequencyBlocked cfg pruned then (false, s1)
    else if account_balance * cfg.max_position_percent <
        (s1.position_values coin).getD 0 + trade_value then (false, s1)
    else (true, s1)

/-- `PositionLimiter.record_trade(coin, trade_value)` (lines 57-76). -/
def record_trade (s : LimiterState) (current_time : ℚ) (coin : String)
    (trade_value : ℚ) : LimiterState :=
  { trade_history := Function.update s.trade_history coin
      (some ((s.trade_history coin).getD [] ++ [current_time]))
    last_trade_time := Function.update s.last_trade_time coin (some current_time)
    position_values := Function.update s.position_values coin
      (some ((s.position_values coin).getD 0 + trade_value)) }

/-- `PositionLimiter.reset_position(coin)` (lines 78-84): delete the
coin's entry of `position_values`, touch nothing else. -/
def reset_position (s : LimiterState) (coin : String) : LimiterState :=
  { s with position_values := Function.update s.position_values coin none }

/-- A concrete limiter configuration: hourly cap 3, 25% exposure cap,
30 s cooldown (the defaults of `PositionLimiter.__init__`). -/
def demoLimiterCfg : LimiterConfig :=
  { max_trades_per_coin_per_hour := 3
    max_position_percent := 1 / 4
    min_time_between_trades := 30 }

/-- A limiter state holding one stale (one-hour-old) trade record for
"BTC" and nothing else. -/
def staleBtcState : LimiterState :=
  { trade_history := fun c => if c = "BTC" then some [0] else none
    last_trade_time := fun c => if c = "BTC" then some 0 else none
    position_values := fun _ => none }

/-- Claim C4: whenever `should_allow_trade` returns `true`, no field of
the limiter state is mutated.  FALSE: at time 3601 s on `staleBtcState`
the call returns `true` but has pruned the stale timestamp out of
`trade_history["BTC"]`, mutating it from `[0]` to `[]`. -/
theorem C4_no_mutation_cx :
    (should_allow_trade demoLimiterCfg staleBtcState 3601 "BTC" 1 100).1 = true ∧
      (should_allow_trade demoLimiterCfg staleBtcState 3601 "BTC" 1 100).2.trade_history "BTC" ≠
        staleBtcState.trade_history "BTC" := by
  constructor
  · simp [should_allow_trade, blockedByCooldown, frequencyBlocked, staleBtcState,
      demoLimiterCfg]
    norm_num
  · simp [should_allow_trade, blockedByCooldown, frequencyBlocked, staleBtcState,
      demoLimiterCfg, Function.update]
    norm_num

/-- Claim C4 (amended): whenever `should_allow_trade` returns `true`,
`last_trade_time` and `position_values` are untouched, and
`trade_history` changes at most at the queried coin, whose timestamp list
is pruned to the entries strictly inside the trailing one-hour window; no
entry is ever added — additions happen only through `record_trade`. -/
theorem C4_allow_state_change (cfg : LimiterConfig) (s : LimiterState)
    (current_time : ℚ) (coin : String) (trade_value account_balance : ℚ)
    (h : (should_allow_trade cfg s current_time coin trade_value account_balance).1 = true) :
    (should_allow_trade cfg s current_time coin trade_value account_balance).2.last_trade_time =
        s.last_trade_time ∧
      (should_allow_trade cfg s current_time coin trade_value account_balance).2.position_values =
        s.position_values ∧
      (should_allow_trade cfg s current_time coin trade_value account_balance).2.trade_history =
        Function.update s.trade_history coin
          ((s.trade_history coin).map (List.filter fun t => decide (current_time - 3600 < t))) := by
  unfold should_allow_trade at h ⊢
  by_cases hb : blockedByCooldown cfg s current_time coin = true
  · rw [if_pos hb] at h
    exact absurd h (by simp)
  · rw [if_neg hb] at h ⊢
    dsimp only at h ⊢
    split_ifs <;> exact ⟨rfl, rfl, rfl⟩

/-- Witness for C4 (amended): on `staleBtcState` at time 3601 s the call
returns `true`, and the after-state is exactly the pruning described by
the theorem. -/
theorem C4_allow_state_change_witness :
    (should_allow_trade demoLimiterCfg staleBtcState 3601 "BTC" 1 100).2.last_trade_time =
        staleBtcState.last_trade_time ∧
      (should_allow_trade demoLimiterCfg staleBtcState 3601 "BTC" 1 100).2.position_values =
        staleBtcState.position_values ∧
      (should_allow_trade demoLimiterCfg staleBtcState 3601 "BTC" 1 100).2.trade_history =
        Function.update staleBtcState.trade_history "BTC"
          ((staleBtcState.trade_history "BTC").map
            (List.filter fun t => decide ((3601 : ℚ) - 3600 < t))) :=
  C4_allow_state_change demoLimiterCfg staleBtcState 3601 "BTC" 1 100
    (by
      simp [should_allow_trade, blockedByCooldown, frequencyBlocked, staleBtcState,
        demoLimiterCfg]
      norm_num)

/-- Claim C9: `reset_position(coin)` clears only the tracked exposure for
that coin; `trade_history` and `last_trade_time` are untouched, and every
other coin's exposure entry is untouched. -/
theorem C9_reset_position_frame (s : LimiterState) (coin : String) :
    (reset_position s coin).trade_history = s.trade_history ∧
      (reset_position s coin).last_trade_time = s.last_trade_time ∧
      (reset_position s coin).position_values coin = none ∧
      ∀ c, c ≠ coin → (reset_position s coin).position_values c = s.position_values c := by
  refine ⟨rfl, rfl, ?_, ?_⟩
  · simp [reset_position]
  · intro c hc
    simp [reset_position, Function.update_noteq hc]

/-- Witness for C9 on the concrete `staleBtcState`: resetting "BTC"
leaves the history, the last-trade time and the "ETH" exposure entry
as they were. -/
theorem C9_reset_position_frame_witness :
    (reset_position staleBtcState "BTC").trade_history = staleBtcState.trade_history ∧
      (reset_position staleBtcState "BTC").position_values "BTC" = none ∧
      (reset_position staleBtcState "BTC").position_values "ETH" =
        staleBtcState.position_values "ETH" :=
  ⟨(C9_reset_position_frame staleBtcState "BTC").1,
    (C9_reset_position_frame staleBtcState "BTC").2.2.1,
    (C9_reset_position_frame staleBtcState "BTC").2.2.2 "ETH" (by decide)⟩

/-- A market order handed to `exchange.market_open`: direction and size. -/
structure Order where
  is_buy : Bool
  sz : ℚ
  deriving DecidableEq

/-- Outcome of `PortfolioExecutor.rebalance_position`: either the
sub-minimum skip (lines 75-81) or the market orders actually submitted,
in submission order, together with the action label of the run
("CLOSE", "OPEN", "ADJUST", or "CLOSED" for the close-without-reopen
early return of lines 107-114). -/
inductive RebalanceResult
  | skipped
  | executed (orders : List Order) (action : String)
  deriving DecidableEq

/-- The target-size computation of `rebalance_position` (lines 57-62):
`target_value / current_price` when positive else 0, signed by
`is_long`. -/
def targetSize (target_value current_price : ℚ) (is_long : Bool) : ℚ :=
  let t := if target_value > 0 then target_value / current_price else 0
  if is_long then |t| else -|t|

/-- `PortfolioExecutor.rebalance_position(coin, target_value,
current_price, is_long)` (src/portfolio_executor.py lines 46-128), with
the current signed position size passed explicitly and order submission
reified as the returned order list. -/
def rebalance_position (target_value current_price : ℚ) (is_long : Bool)
    (current_size : ℚ) : RebalanceResult :=
  let target_size := targetSize target_value current_price is_long
  let size_diff := target_size - current_size
  if |target_value| < minOrderValue ∧ current_size ≠ 0 then
    .executed [⟨decide (current_size < 0), |current_size|⟩] "CLOSE"
  else if |size_diff * current_price| < minOrderValue then
    .skipped
  else if current_size = 0 then
    .executed [⟨is_long, |size_diff|⟩] "OPEN"
  else if |size_diff| ≥ |current_size| * (9 / 10) then
    if target_value ≥ minOrderValue then
      .executed [⟨decide (current_size < 0), |current_size|⟩, ⟨is_long, |target_size|⟩] "OPEN"
    else
      .executed [⟨decide (current_size < 0), |current_size|⟩] "CLOSED"
  else
    .executed [⟨decide (size_diff > 0), |size_diff|⟩] "ADJUST"

/-- Claim C6: when `|targetValue| ≥ minOrderValue`,
`|sizeDiff * currentPrice| ≥ minOrderValue`, `currentSize ≠ 0` and
`|sizeDiff| ≥ |currentSize| * 0.9`, the engine first closes the full
existing position (quantity `|currentSize|`, direction opposite its
sign) and then, iff `targetValue ≥ minOrderValue`, opens `|targetSize|`
in the target direction. -/
theorem C6_close_then_open (target_value current_price : ℚ) (is_long : Bool)
    (current_size : ℚ)
    (h1 : minOrderValue ≤ |target_value|)
    (h2 : minOrderValue ≤ |(targetSize target_value current_price is_long - current_size) *
      current_price|)
    (h3 : current_size ≠ 0)
    (h4 : |current_size| * (9 / 10) ≤
      |targetSize target_value current_price is_long - current_size|) :
    rebalance_position target_value current_price is_long current_size =
      RebalanceResult.executed
        (⟨decide (current_size < 0), |current_size|⟩ ::
          (if minOrderValue ≤ target_value then
            [⟨is_long, |targetSize target_value current_price is_long|⟩]
          else []))
        (if minOrderValue ≤ target_value then "OPEN" else "CLOSED") := by
  unfold rebalance_position
  dsimp only
  rw [if_neg (fun hc => absurd hc.1 (not_lt.mpr h1)),
    if_neg (not_lt.mpr h2), if_neg h3, if_pos h4]
  split_ifs <;> rfl

/-- Witness for C6: the spec's direction-flip scenario
`currentSize = +100, targetValue = 500, currentPrice = 5, isLong = false`
emits CLOSE of 100 with `is_buy = false` followed by OPEN of 100 with
`is_buy = false`. -/
theorem C6_close_then_open_witness :
    rebalance_position 500 5 false 100 =
      RebalanceResult.executed [⟨false, 100⟩, ⟨false, 100⟩] "OPEN" := by
  have h := C6_close_then_open 500 5 false 100
    (by norm_num [minOrderValue])
    (by norm_num [targetSize, minOrderValue])
    (by norm_num)
    (by norm_num [targetSize])
  simp only [targetSize] at h
  norm_num at h
  convert h using 2

/-- Claim C7: when `|targetValue| < minOrderValue` and
`currentSize ≠ 0`, `rebalance_position` fully closes: one order of
quantity `|currentSize|` in the direction opposite the position's sign,
regardless of the size of `sizeDiff`. -/
theorem C7_close_below_min (target_value current_price : ℚ) (is_long : Bool)
    (current_size : ℚ)
    (h1 : |target_value| < minOrderValue) (h2 : current_size ≠ 0) :
    rebalance_position target_value current_price is_long current_size =
      RebalanceResult.executed [⟨decide (current_size < 0), |current_size|⟩] "CLOSE" := by
  unfold rebalance_position
  dsimp only
  rw [if_pos ⟨h1, h2⟩]

/-- Witness for C7: target value 5 (below the 10.0 minimum) against a
short position of −3 emits a single closing BUY of 3. -/
theorem C7_close_below_min_witness :
    rebalance_position 5 2 true (-3) =
      RebalanceResult.executed [⟨true, 3⟩] "CLOSE" := by
  have h := C7_close_below_min 5 2 true (-3) (by norm_num [minOrderValue]) (by norm_num)
  convert h using 3

/-- Claim C8: when the current position already equals the target size
and `|targetValue| ≥ minOrderValue`, `rebalance_position` emits no order
and returns the skip outcome — so a repeated call with identical
arguments after convergence skips. -/
theorem C8_idempotence_guard (target_value current_price : ℚ) (is_long : Bool)
    (current_size : ℚ)
    (h1 : minOrderValue ≤ |target_value|)
    (h2 : current_size = targetSize target_value current_price is_long) :
    rebalance_position target_value current_price is_long current_size =
      RebalanceResult.skipped := by
  unfold rebalance_position
  dsimp only
  rw [if_neg (fun hc => absurd hc.1 (not_lt.mpr h1)), if_pos]
  rw [h2]
  simp [minOrderValue]

/-- Witness for C8: a long position of 100 with target value 500 at
price 5 (`targetSize = 100`) is already converged: the call skips. -/
theorem C8_idempotence_guard_witness :
    rebalance_position 500 5 true 100 = RebalanceResult.skipped :=
  C8_idempotence_guard 500 5 true 100 (by norm_num [minOrderValue])
    (by norm_num [targetSize])

/-- Python's `round` on an exact rational: round half to even. -/
def roundHalfEven (x : ℚ) : ℤ :=
  let n := ⌊x⌋
  let frac := x - n
  if frac < 1 / 2 then n
  else if 1 / 2 < frac then n + 1
  else if n % 2 = 0 then n else n + 1

/-- `round(x, ndigits)` of `execute_market_order` line 130, on exact
rationals. -/
def pyRound (x : ℚ) (ndigits : ℕ) : ℚ :=
  (roundHalfEven (x * 10 ^ ndigits) : ℚ) / 10 ^ ndigits

/-- The outcome `TradeExecutor` computes before/instead of talking to the
exchange: the two early returns of `execute_market_order` (below-minimum
skip, insufficient balance), the submitted order, or the typed failures
of `copy_trade` (no position to decrease/close, unknown action). -/
inductive TradeResult
  | skippedBelowMin
  | insufficientBalance
  | submit (is_buy : Bool) (sz : ℚ)
  | noPositionToDecrease
  | noPositionToClose
  | unknownAction
  deriving DecidableEq

/-- `TradeExecutor.execute_market_order(coin, is_buy, size, action_type)`
(src/trade_executor.py lines 108-160) up to the exchange call: sizing by
action (lines 119-126), precision rounding (line 130), the minimum-order
check skipped for CLOSE (lines 132-139), and the balance check applied
only to non-CLOSE buys (lines 141-148).  The mid-price lookup is passed
in as `current_price` and the instrument precision as `precision`. -/
def execute_market_order (cfg : SizingConfig) (account_balance current_price : ℚ)
    (precision : ℕ) (is_buy : Bool) (size : ℚ) (action_type : String) : TradeResult :=
  let calculated_size :=
    if action_type = "OPEN" then
      calculate_position_size cfg account_balance size current_price
    else if action_type = "CLOSE" then
      |size|
    else
      |size| * cfg.account_ratio
  let rounded_size := pyRound calculated_size precision
  let order_value := rounded_size * current_price
  if action_type ≠ "CLOSE" ∧ order_value < minOrderValue then
    .skippedBelowMin
  else if action_type ≠ "CLOSE" ∧ is_buy = true ∧ account_balance < order_value then
    .insufficientBalance
  else
    .submit is_buy rounded_size

/-- `TradeExecutor.copy_trade(signal_coin, signal_size, action_type)`
(src/trade_executor.py lines 188-236), with the follower's current signed
position size for the coin (`float(my_pos["position"]["szi"])`) passed as
`my_szi` (`none` when the coin has no entry in `assetPositions`). -/
def copy_trade (cfg : SizingConfig) (account_balance current_price : ℚ) (precision : ℕ)
    (signal_size : ℚ) (action_type : String) (my_szi : Option ℚ) : TradeResult :=
  if action_type = "OPEN" then
    execute_market_order cfg account_balance current_price precision
      (decide (signal_size > 0)) |signal_size| action_type
  else if action_type = "INCREASE" then
    let is_buy :=
      match my_szi with
      | some z => if z ≠ 0 then decide (z > 0) else decide (signal_size > 0)
      | none => decide (signal_size > 0)
    execute_market_order cfg account_balance current_price precision is_buy
      |signal_size| action_type
  else if action_type = "DECREASE" then
    match my_szi with
    | some z =>
      if z ≠ 0 then
        execute_market_order cfg account_balance current_price precision
          (decide (z < 0)) |signal_size| action_type
      else .noPositionToDecrease
    | none => .noPositionToDecrease
  else if action_type = "CLOSE" then
    match my_szi with
    | some z =>
      if z ≠ 0 then
        execute_market_order cfg account_balance current_price precision
          (decide (z < 0)) |signal_size| action_type
      else .noPositionToClose
    | none => .noPositionToClose
  else .unknownAction

/-- A `wallet_percentage` configuration (50% of the wallet per order,
`ACCOUNT_RATIO = 0.1`). -/
def walletPctCfg : SizingConfig :=
  { sizing_method := "wallet_percentage"
    account_ratio := 1 / 10
    max_position_size := 1000
    fixed_size := 1
    wallet_percentage := 1 / 2
    wallet_fixed_amount := 10 }

/-- Claim C3: for INCREASE and DECREASE the submitted quantity is the
full SizingEngine computation on `|signalSize|`, as for OPEN.  FALSE:
with `wallet_percentage` (balance 1000, price 1, signal 200) an INCREASE
on an existing long submits `|200| * ACCOUNT_RATIO = 20`, while the
sizing engine would give `1000 * 0.5 = 500`. -/
theorem C3_modify_sizing_cx :
    copy_trade walletPctCfg 1000 1 6 200 "INCREASE" (some 10) = TradeResult.submit true 20 ∧
      calculate_position_size walletPctCfg 1000 200 1 = 500 ∧ (20 : ℚ) ≠ 500 := by
  refine ⟨?_, ?_, by norm_num⟩
  · simp [copy_trade, execute_market_order, walletPctCfg, minOrderValue, pyRound, roundHalfEven]
    norm_num
  · simp [calculate_position_size, raw_method_size, apply_max_cap, apply_min_floor,
      apply_safety_clamp, walletPctCfg, minOrderValue, min_def]
    norm_num

/-- Claim C3 (amended): for INCREASE and DECREASE the submitted quantity
is `|signalSize| * accountRatio` (rounded to instrument precision) —
the bare fixed-ratio multiplier, whatever sizing method is configured,
with no max-position cap, no minimum-order floor-up (a sub-minimum
modification is skipped instead) and no 90% balance clamp; only OPEN
runs the full SizingEngine algorithm. -/
theorem C3_modify_plain_ratio (cfg : SizingConfig) (account_balance current_price : ℚ)
    (precision : ℕ) (signal_size : ℚ) (action_type : String) (my_szi : Option ℚ)
    (b : Bool) (q : ℚ)
    (ha : action_type = "INCREASE" ∨ action_type = "DECREASE")
    (h : copy_trade cfg account_balance current_price precision signal_size action_type my_szi =
      TradeResult.submit b q) :
    q = pyRound (|signal_size| * cfg.account_ratio) precision := by
  rcases ha with ha | ha <;> subst ha
  · simp [copy_trade, execute_market_order] at h
    split_ifs at h
    simp_all
  · rcases my_szi with _ | z
    · simp [copy_trade] at h
    · by_cases hz : z = 0
      · simp [copy_trade, hz] at h
      · simp [copy_trade, hz, execute_market_order] at h
        split_ifs at h
        simp_all

/-- Witness for C3 (amended): the INCREASE above submits quantity 20,
which is `pyRound (|200| * 0.1) 6`. -/
theorem C3_modify_plain_ratio_witness :
    (20 : ℚ) = pyRound (|(200 : ℚ)| * walletPctCfg.account_ratio) 6 :=
  C3_modify_plain_ratio walletPctCfg 1000 1 6 200 "INCREASE" (some 10) true 20
    (Or.inl rfl)
    (by
      simp [copy_trade, execute_market_order, walletPctCfg, minOrderValue, pyRound,
        roundHalfEven]
      norm_num)

/-- Claim C5: a CLOSE with no existing nonzero position returns the
skippable no-position outcome for every sizing configuration and
balance — the SizingEngine is never consulted; with a nonzero position
`z` the order direction is opposite `z`'s sign and the quantity is the
signal magnitude `|signalSize|` itself (up to instrument-precision
rounding), not a SizingEngine recomputation, with no minimum-order
check applied. -/
theorem C5_close_no_sizing (cfg : SizingConfig) (account_balance current_price : ℚ)
    (precision : ℕ) (signal_size z : ℚ) :
    copy_trade cfg account_balance current_price precision signal_size "CLOSE" none =
        TradeResult.noPositionToClose ∧
      copy_trade cfg account_balance current_price precision signal_size "CLOSE" (some 0) =
        TradeResult.noPositionToClose ∧
      (z ≠ 0 →
        copy_trade cfg account_balance current_price precision signal_size "CLOSE" (some z) =
          TradeResult.submit (decide (z < 0)) (pyRound |signal_size| precision)) := by
  refine ⟨by simp [copy_trade], by simp [copy_trade], fun hz => ?_⟩
  simp [copy_trade, hz, execute_market_order]

/-- Witness for C5: closing against a short position of −2 submits a BUY
of the exact signal magnitude 3; with no position the outcome is the
no-position skip. -/
theorem C5_close_no_sizing_witness :
    copy_trade walletFixedCfg 100 7 2 3 "CLOSE" (some (-2)) = TradeResult.submit true 3 ∧
      copy_trade walletFixedCfg 100 7 2 3 "CLOSE" none = TradeResult.noPositionToClose := by
  constructor
  · have h := (C5_close_no_sizing walletFixedCfg 100 7 2 3 (-2)).2.2 (by norm_num)
    rw [h]
    have hd : decide ((-2 : ℚ) < 0) = true := by
      rw [decide_eq_true_eq]
      norm_num
    have hr : pyRound |(3 : ℚ)| 2 = 3 := by
      norm_num [pyRound, roundHalfEven]
    rw [hd, hr]
  · exact (C5_close_no_sizing walletFixedCfg 100 7 2 3 (-2)).1

/-- Claim C10: the pre-submission insufficient-balance check applies only
to non-CLOSE buy orders: no sell order and no CLOSE order ever yields
the insufficient-balance outcome, whatever the balance. -/
theorem C10_balance_check_scope (cfg : SizingConfig) (account_balance current_price : ℚ)
    (precision : ℕ) (is_buy : Bool) (size : ℚ) (action_type : String)
    (h : is_buy = false ∨ action_type = "CLOSE") :
    execute_market_order cfg account_balance current_price precision is_buy size action_type ≠
      TradeResult.insufficientBalance := by
  unfold execute_market_order
  dsimp only
  rcases h with h | h <;> subst h <;> split_ifs <;> simp_all

/-- Witness for C10: a sell with zero balance, and a CLOSE buy with zero
balance, both avoid the insufficient-balance outcome. -/
theorem C10_balance_check_scope_witness :
    execute_market_order walletFixedCfg 0 5 6 false 1 "OPEN" ≠
        TradeResult.insufficientBalance ∧
      execute_market_order walletFixedCfg 0 5 6 true 1 "CLOSE" ≠
        TradeResult.insufficientBalance :=
  ⟨C10_balance_check_scope walletFixedCfg 0 5 6 false 1 "OPEN" (Or.inl rfl),
    C10_balance_check_scope walletFixedCfg 0 5 6 true 1 "CLOSE" (Or.inr rfl)⟩
